import Mathlib

/-!
# Capsera offline sync subsystem — shallow embedding

This file embeds the offline durability and synchronization subsystem of the
Capsera client (src/utils/syncQueue.js, together with the sync-queue and cache
operations of src/utils/idb.js) and proves properties of the embedded
operations.

Modelling conventions:
* Timestamps are rationals (milliseconds); the source stores ISO strings and
  compares them through `Date`, which is millisecond comparison.
* The queue store (the IndexedDB `syncQueue` object store, or the in-memory
  fallback array) is a list of `QueueItem`s in scan order; `syncQueue` is
  keyed by `id`, so ids are unique in any reachable store.
* `Math.random()` samples are passed in explicitly: one rational per
  processed item of a drain pass (`rands` indexed by the number of items
  processed so far in the pass).
* A JavaScript field that is absent or `null` is `Option.none`.
* The remote submission adapter (`insertFinalProject` / `insertFeedback` from
  supabaseClient.js) is a parameter `(type, payload) ↦ ok or err msg`; a
  rejected promise is `.err msg`.
-/

/-- MAX_RETRIES from syncQueue.js. -/
def MAX_RETRIES : Nat := 5

/-- BASE_DELAY (ms) from syncQueue.js. -/
def BASE_DELAY : ℚ := 1000

/-- MAX_DELAY (ms) from syncQueue.js. -/
def MAX_DELAY : ℚ := 30000

/-- A sync queue item, as constructed by `addToSyncQueue` (idb.js) /
`enqueue` (syncQueue.js) and mutated by `processQueueItem`. -/
structure QueueItem where
  id : Nat
  type : String
  payload : String
  createdAt : ℚ
  retries : Nat
  nextAttemptAt : Option ℚ := none
  lastError : Option String := none
deriving DecidableEq, Repr

/-- The item literal built by `addToSyncQueue` (idb.js 823-831) and by the
fallback branch of `enqueue` (syncQueue.js 160-166): fresh id, `retries: 0`,
and no `nextAttemptAt` / `lastError` fields (absent ≈ null). -/
def mkQueueItem (id : Nat) (ty pl : String) (now : ℚ) : QueueItem :=
  { id := id, type := ty, payload := pl, createdAt := now, retries := 0 }

/-- `removeFromSyncQueue` (idb.js) / the fallback splice (syncQueue.js
198-204): delete the record with the given key. -/
def removeQueueItem (store : List QueueItem) (id : Nat) : List QueueItem :=
  store.filter (fun it => it.id != id)

/-- `updateSyncQueueItem` (idb.js 844-851) / fallback Object.assign
(syncQueue.js 218-224): merge updates into the record with the given key. -/
def updateQueueItem (store : List QueueItem) (id : Nat)
    (f : QueueItem → QueueItem) : List QueueItem :=
  store.map (fun it => if it.id = id then f it else it)

/-- Result of one remote submission (`insertFinalProject`/`insertFeedback`):
the promise either resolves or rejects with an error message. -/
inductive AdapterResult
  | ok
  | err (msg : String)
deriving DecidableEq, Repr

/-- The remote submission adapter: type and payload to result. -/
abbrev Adapter := String → String → AdapterResult

/-- `getRetryDelay` (syncQueue.js 233-238): capped exponential backoff plus
jitter, where `rand` is the `Math.random()` sample (`0 ≤ rand < 1`). -/
def getRetryDelay (retryCount : Nat) (rand : ℚ) : ℚ :=
  let delay := min (BASE_DELAY * 2 ^ retryCount) MAX_DELAY
  let jitter := rand * (3 / 10) * delay
  delay + jitter

/-- Result of `processQueueItem` on one item: its boolean return value, the
queue store afterwards, and how many adapter (network) calls it made. -/
structure ItemOutcome where
  success : Bool
  store : List QueueItem
  adapterCalls : Nat
deriving DecidableEq, Repr

/-- The catch branch of `processQueueItem` (syncQueue.js 275-305): a failed
adapter call bumps the retry count; on reaching MAX_RETRIES the item is
removed (and the failure only logged), otherwise the item is updated with the
new retry count, `nextAttemptAt = now + delay` and the error message. -/
def handleItemFailure (msg : String) (now rand : ℚ)
    (store : List QueueItem) (item : QueueItem) : ItemOutcome :=
  let newRetryCount := item.retries + 1
  if MAX_RETRIES ≤ newRetryCount then
    { success := false, store := removeQueueItem store item.id, adapterCalls := 1 }
  else
    let delay := getRetryDelay newRetryCount rand
    { success := false,
      store := updateQueueItem store item.id fun it =>
        { it with retries := newRetryCount,
                  nextAttemptAt := some (now + delay),
                  lastError := some msg },
      adapterCalls := 1 }

/-- `processQueueItem` (syncQueue.js 241-306): the switch delegates
"finalSubmit" and "feedback" to the remote adapter; any other type is warned
about and treated as success without a network call. Success removes the item
and returns true; an adapter error goes through the catch branch. -/
def processQueueItem (adapter : Adapter) (now rand : ℚ)
    (store : List QueueItem) (item : QueueItem) : ItemOutcome :=
  if item.type = "finalSubmit" ∨ item.type = "feedback" then
    match adapter item.type item.payload with
    | .ok => { success := true, store := removeQueueItem store item.id, adapterCalls := 1 }
    | .err msg => handleItemFailure msg now rand store item
  else
    { success := true, store := removeQueueItem store item.id, adapterCalls := 0 }

/-- Module-level engine state of syncQueue.js: the `isProcessing` single-flight
flag, `navigator.onLine` (undefined is modelled as `none`), whether the
queue store is readable (`getSyncQueue` succeeds), and the store contents. -/
structure EngineState where
  isProcessing : Bool
  onLine : Option Bool
  readOk : Bool
  store : List QueueItem
deriving DecidableEq, Repr

/-- `isOnline` (syncQueue.js 309-311): `navigator.onLine !== false`, defaulting
to online when the field is undefined. -/
def isOnline (o : Option Bool) : Bool := o != some false

/-- `getQueueItems` (syncQueue.js 179-190): reads the whole store; any storage
error is caught and an empty list returned. -/
def getQueueItems (st : EngineState) : List QueueItem :=
  if st.readOk then st.store else []

/-- Accumulator of the for-loop of `processSyncQueue` (syncQueue.js 341-364). -/
structure LoopAcc where
  store : List QueueItem
  successCount : Nat
  failCount : Nat
  adapterCalls : Nat
  processedCount : Nat
deriving DecidableEq, Repr

/-- The per-item loop of `processSyncQueue`: items whose `nextAttemptAt` lies
in the future are skipped (left untouched); the rest are handed to
`processQueueItem`, whose boolean return value feeds the success/fail
counters. The pass iterates over the snapshot taken at the start of the pass
while the store evolves underneath. The loop's 500 ms pacing delay does not
change any observable accounted here; `now` is held fixed for the pass. -/
def drainLoop (adapter : Adapter) (now : ℚ) (rands : Nat → ℚ) :
    List QueueItem → LoopAcc → LoopAcc
  | [], acc => acc
  | item :: rest, acc =>
    let gateClosed := match item.nextAttemptAt with
      | some t => decide (now < t)
      | none => false
    if gateClosed then
      drainLoop adapter now rands rest acc
    else
      let r := processQueueItem adapter now (rands acc.processedCount) acc.store item
      drainLoop adapter now rands rest
        { store := r.store,
          successCount := acc.successCount + (if r.success then 1 else 0),
          failCount := acc.failCount + (if r.success then 0 else 1),
          adapterCalls := acc.adapterCalls + r.adapterCalls,
          processedCount := acc.processedCount + 1 }

/-- How a call of `processSyncQueue` resolved. The source's outer catch
(syncQueue.js 382-384) logs and swallows any pass-level error, so the promise
resolves on every path; `failed` (a rejection visible to the caller) is the
signal the spec postulates, which no source path produces. -/
inductive DrainResult
  | skipped
  | emptyQueue
  | completed (successCount failCount : Nat)
  | failed (msg : String)
deriving DecidableEq, Repr

/-- Whether a drain result is a failure propagated to the caller. -/
def DrainResult.isFailure : DrainResult → Bool
  | .failed _ => true
  | _ => false

/-- Everything observable from one `processSyncQueue` invocation. -/
structure DrainOutput where
  state : EngineState
  result : DrainResult
  adapterCalls : Nat
deriving DecidableEq, Repr

/-- `processSyncQueue` (syncQueue.js 314-387): returns immediately when a pass
is already running or when offline; otherwise sets the single-flight flag,
reads a snapshot of the queue, returns early when it is empty, else runs the
item loop and emits the success/fail summary. The `finally` clears the flag on
every exit path. -/
def processSyncQueue (adapter : Adapter) (now : ℚ) (rands : Nat → ℚ)
    (st : EngineState) : DrainOutput :=
  if st.isProcessing then
    { state := st, result := .skipped, adapterCalls := 0 }
  else if isOnline st.onLine then
    let queueItems := getQueueItems st
    if queueItems.isEmpty then
      { state := { st with isProcessing := false }, result := .emptyQueue, adapterCalls := 0 }
    else
      let acc := drainLoop adapter now rands queueItems
        { store := st.store, successCount := 0, failCount := 0,
          adapterCalls := 0, processedCount := 0 }
      { state := { st with store := acc.store, isProcessing := false },
        result := .completed acc.successCount acc.failCount,
        adapterCalls := acc.adapterCalls }
  else
    { state := st, result := .skipped, adapterCalls := 0 }

/-- `addToSyncQueue` (idb.js 823-834): builds the item and `add`s it to the
`syncQueue` store; a storage fault rejects, surfaced unchanged. Returns the
item. -/
def addToSyncQueue (storageOk : Bool) (id : Nat) (ty pl : String) (now : ℚ)
    (store : List QueueItem) : Except String (List QueueItem × QueueItem) :=
  let queueItem := mkQueueItem id ty pl now
  if storageOk then .ok (store ++ [queueItem], queueItem)
  else .error "StorageUnavailable"

/-- `enqueue` (syncQueue.js 152-176): uses IndexedDB when available, else
pushes the same item shape onto the in-memory fallback array (which cannot
fault). A storage error is logged and rethrown to the caller. -/
def enqueue (idbAvailable storageOk : Bool) (id : Nat) (ty pl : String)
    (now : ℚ) (store : List QueueItem) :
    Except String (List QueueItem × QueueItem) :=
  if idbAvailable then
    addToSyncQueue storageOk id ty pl now store
  else
    let queueItem := mkQueueItem id ty pl now
    .ok (store ++ [queueItem], queueItem)

/-- A sequence of `enqueue` calls (IndexedDB available and healthy), with ids
assigned in sequence. -/
def enqueueAll : List (String × String) → ℚ → Nat → List QueueItem → List QueueItem
  | [], _, _, store => store
  | (ty, pl) :: rest, now, nextId, store =>
    match enqueue true true nextId ty pl now store with
    | .ok (store', _) => enqueueAll rest now (nextId + 1) store'
    | .error _ => store

/-- The status snapshot of `getSyncQueueStatus` (syncQueue.js 390-428). -/
structure QueueStatus where
  totalItems : Nat
  pendingItems : Nat
  failedItems : Nat
  readyToRetry : Nat
  isProcessing : Bool
  isOnline : Bool
deriving DecidableEq, Repr

/-- The forEach classification of `getSyncQueueStatus` (syncQueue.js 405-413):
0 = failed (retries at max), 1 = pending (backoff gate in the future),
2 = ready to retry. -/
def statusBucket (now : ℚ) (it : QueueItem) : Nat :=
  if MAX_RETRIES ≤ it.retries then 0
  else match it.nextAttemptAt with
    | some t => if now < t then 1 else 2
    | none => 2

/-- `getSyncQueueStatus` (syncQueue.js 390-428): partitions the current items
relative to `now`. -/
def getSyncQueueStatus (now : ℚ) (st : EngineState) : QueueStatus :=
  let items := getQueueItems st
  { totalItems := items.length
    pendingItems := (items.filter (fun it => statusBucket now it == 1)).length
    failedItems := (items.filter (fun it => statusBucket now it == 0)).length
    readyToRetry := (items.filter (fun it => statusBucket now it == 2)).length
    isProcessing := st.isProcessing
    isOnline := isOnline st.onLine }

/-- `clearFailedQueueItems` (syncQueue.js 431-449): removes every item whose
retry count reached the maximum, returning how many were removed. -/
def clearFailedQueueItems (st : EngineState) : EngineState × Nat :=
  let items := getQueueItems st
  let failed := items.filter (fun it => decide (MAX_RETRIES ≤ it.retries))
  ({ st with store := failed.foldl (fun s it => removeQueueItem s it.id) st.store },
   failed.length)

/-- `retryQueueItem` (syncQueue.js 452-474): resets the item's retry state
through `updateQueueItem` (which yields null when the item is absent or the
store unreadable), and, when the reset succeeded and we are online, fires an
immediate `processSyncQueue`. -/
def retryQueueItem (adapter : Adapter) (now : ℚ) (rands : Nat → ℚ)
    (st : EngineState) (itemId : Nat) : EngineState × Bool :=
  if st.readOk && st.store.any (fun it => it.id == itemId) then
    let st' := { st with store := updateQueueItem st.store itemId fun it =>
      { it with retries := 0, nextAttemptAt := none, lastError := none } }
    let st'' := if isOnline st'.onLine then (processSyncQueue adapter now rands st').state
                else st'
    (st'', true)
  else (st, false)

/-- An adapter whose every call succeeds. -/
def okAdapter : Adapter := fun _ _ => .ok

/-- An adapter whose every call fails. -/
def failingAdapter : Adapter := fun _ _ => .err "network error"

/-- Jitter samples all zero. -/
def zeroRands : Nat → ℚ := fun _ => 0

/-! ## Cache layer (idb.js) -/

/-- A `cache` store entry as built by `setCacheItem` (idb.js 858-868). -/
structure CacheEntry where
  key : String
  data : String
  type : String
  createdAt : ℚ
deriving DecidableEq, Repr

/-- The state of the `cursor` binding inside `clearExpiredCache` (idb.js
870-890). The binding is `const` and initialized once from
`store.openCursor()`; `cursor.value` reads the underlying IDB cursor's value,
which is undefined (`none`) after `cursor.continue()` has been called and its
request has not yet completed. -/
structure JsCursor where
  value : Option CacheEntry
deriving DecidableEq, Repr

/-- How one run of the `while (cursor)` loop of `clearExpiredCache` ends. -/
inductive PurgeOutcome
  | ok (deletedCount : Nat)
  | threw (msg : String)
  | fuelExhausted
deriving DecidableEq, Repr

/-- Whether the loop returned normally with a count. -/
def PurgeOutcome.isOk : PurgeOutcome → Bool
  | .ok _ => true
  | _ => false

/-- The `while (cursor)` loop of `clearExpiredCache` (idb.js 879-886), stepped
with fuel. The loop guard re-reads the same `const cursor` binding, which is
never reassigned (the source never does `cursor = await cursor.continue()`),
so the guard stays true forever once entered. In the second iteration
`cursor.value` is undefined — `cursor.continue()` was called without awaiting
its result — so `cursor.value.createdAt` throws a TypeError. -/
def clearExpiredLoop (cutoff : ℚ) :
    Nat → JsCursor → Nat → List CacheEntry → PurgeOutcome × List CacheEntry
  | 0, _, _, store => (.fuelExhausted, store)
  | fuel + 1, cursor, deleted, store =>
    match cursor.value with
    | none => (.threw "TypeError: cannot read createdAt of undefined", store)
    | some e =>
      let expired := decide (e.createdAt < cutoff)
      let deleted' := if expired then deleted + 1 else deleted
      let store' := if expired then store.filter (fun x => x.key != e.key) else store
      clearExpiredLoop cutoff fuel { value := none } deleted' store'

/-- `clearExpiredCache` (idb.js 870-890): opens a cursor over the `cache`
store (null when the store is empty) and runs the while loop above; returns
the deleted count together with the store left behind. -/
def clearExpiredCacheJs (fuel : Nat) (now maxAgeMs : ℚ)
    (store : List CacheEntry) : PurgeOutcome × List CacheEntry :=
  let cutoff := now - maxAgeMs
  match store with
  | [] => (.ok 0, store)
  | e :: _ => clearExpiredLoop cutoff fuel { value := some e } 0 store

/-- The C2 scenario run: item B of type "feedback" enqueued at time 0, then
five drain passes at times 100000, 200000, …, 500000 against an adapter that
always fails, with zero jitter. Each pass time lies beyond the previous
pass's backoff gate (the largest possible gate offset is 39000 ms). -/
def exhaustionRun : DrainOutput :=
  let s0 : EngineState :=
    { isProcessing := false, onLine := some true, readOk := true,
      store := [mkQueueItem 0 "feedback" "B" 0] }
  let o1 := processSyncQueue failingAdapter 100000 zeroRands s0
  let o2 := processSyncQueue failingAdapter 200000 zeroRands o1.state
  let o3 := processSyncQueue failingAdapter 300000 zeroRands o2.state
  let o4 := processSyncQueue failingAdapter 400000 zeroRands o3.state
  processSyncQueue failingAdapter 500000 zeroRands o4.state

/-! ## Theorems -/

/-- Helper: when every adapter call succeeds, `processQueueItem` returns true
and removes the item, touching nothing else. -/
theorem processQueueItem_all_ok (adapter : Adapter)
    (hA : ∀ ty pl, adapter ty pl = .ok) (now rand : ℚ)
    (s : List QueueItem) (item : QueueItem) :
    processQueueItem adapter now rand s item =
      { success := true, store := removeQueueItem s item.id,
        adapterCalls := if item.type = "finalSubmit" ∨ item.type = "feedback" then 1 else 0 } := by
  unfold processQueueItem
  by_cases h : item.type = "finalSubmit" ∨ item.type = "feedback"
  · simp [h, hA]
  · simp [h]

/-- Helper: a drain loop over a snapshot of immediately-eligible items, with
an all-succeeding adapter, removes exactly the snapshot's ids from the store,
counts one success per item, and records no failures. -/
theorem drainLoop_all_ok (adapter : Adapter)
    (hA : ∀ ty pl, adapter ty pl = .ok) (now : ℚ) (rands : Nat → ℚ) :
    ∀ (l : List QueueItem) (acc : LoopAcc),
      (∀ it ∈ l, it.nextAttemptAt = none) →
      (drainLoop adapter now rands l acc).store
          = acc.store.filter (fun x => decide (x.id ∉ l.map QueueItem.id))
        ∧ (drainLoop adapter now rands l acc).successCount = acc.successCount + l.length
        ∧ (drainLoop adapter now rands l acc).failCount = acc.failCount := by
  intro l
  induction l with
  | nil => intro acc _; simp [drainLoop]
  | cons item rest ih =>
    intro acc h
    have hnext : item.nextAttemptAt = none := h item (by simp)
    have hrest : ∀ it ∈ rest, it.nextAttemptAt = none :=
      fun it hit => h it (List.mem_cons_of_mem _ hit)
    rw [drainLoop]
    simp only [hnext]
    rw [if_neg (by simp)]
    rw [processQueueItem_all_ok adapter hA]
    obtain ⟨ih1, ih2, ih3⟩ := ih _ hrest
    refine ⟨?_, ?_, ?_⟩
    · rw [ih1]
      show (removeQueueItem acc.store item.id).filter _ = _
      rw [removeQueueItem, List.filter_filter]
      apply List.filter_congr
      intro x _
      by_cases h1 : x.id = item.id <;> by_cases h2 : x.id ∈ rest.map QueueItem.id <;>
        simp [h1, h2]
    · rw [ih2]; simp; omega
    · rw [ih3]; simp

/-- Helper: enqueueing adds one item per request. -/
theorem enqueueAll_length :
    ∀ (reqs : List (String × String)) (now : ℚ) (i : Nat) (store : List QueueItem),
      (enqueueAll reqs now i store).length = store.length + reqs.length := by
  intro reqs
  induction reqs with
  | nil => intro now i store; simp [enqueueAll]
  | cons req rest ih =>
    intro now i store
    obtain ⟨ty, pl⟩ := req
    show (enqueueAll rest now (i + 1) (store ++ [mkQueueItem i ty pl now])).length
        = store.length + (rest.length + 1)
    rw [ih]
    simp
    omega

/-- Helper: every freshly enqueued item is immediately eligible
(`nextAttemptAt` unset). -/
theorem enqueueAll_nextAttemptAt :
    ∀ (reqs : List (String × String)) (now : ℚ) (i : Nat) (store : List QueueItem),
      (∀ it ∈ store, it.nextAttemptAt = none) →
      ∀ it ∈ enqueueAll reqs now i store, it.nextAttemptAt = none := by
  intro reqs
  induction reqs with
  | nil => intro now i store h; simpa [enqueueAll] using h
  | cons req rest ih =>
    intro now i store h
    obtain ⟨ty, pl⟩ := req
    show ∀ it ∈ enqueueAll rest now (i + 1) (store ++ [mkQueueItem i ty pl now]),
        it.nextAttemptAt = none
    apply ih
    intro it hit
    rcases List.mem_append.1 hit with h1 | h1
    · exact h it h1
    · simp only [List.mem_singleton] at h1
      subst h1
      rfl

/-- C1: for every sequence of enqueue calls starting from an empty queue,
a single drain pass run while online, with the remote adapter succeeding on
every item, leaves the queue store with zero items and reports a success
count equal to the number of items enqueued (and no failures). -/
theorem c1_enqueue_then_successful_drain (reqs : List (String × String))
    (adapter : Adapter) (now : ℚ) (rands : Nat → ℚ)
    (hA : ∀ ty pl, adapter ty pl = .ok) (hne : reqs ≠ []) :
    (processSyncQueue adapter now rands
        { isProcessing := false, onLine := some true, readOk := true,
          store := enqueueAll reqs now 0 [] }).state.store = []
  ∧ (processSyncQueue adapter now rands
        { isProcessing := false, onLine := some true, readOk := true,
          store := enqueueAll reqs now 0 [] }).result = .completed reqs.length 0 := by
  have hnone : ∀ it ∈ enqueueAll reqs now 0 [], it.nextAttemptAt = none :=
    enqueueAll_nextAttemptAt reqs now 0 [] (by simp)
  have hlen : (enqueueAll reqs now 0 []).length = reqs.length := by
    simp [enqueueAll_length]
  have hne' : enqueueAll reqs now 0 [] ≠ [] := by
    intro h
    rw [h] at hlen
    exact hne (List.eq_nil_of_length_eq_zero hlen.symm)
  have hempty : (enqueueAll reqs now 0 []).isEmpty = false := by
    cases hE : enqueueAll reqs now 0 [] with
    | nil => exact absurd hE hne'
    | cons a l => rfl
  obtain ⟨h1, h2, h3⟩ := drainLoop_all_ok adapter hA now rands (enqueueAll reqs now 0 [])
    { store := enqueueAll reqs now 0 [], successCount := 0, failCount := 0,
      adapterCalls := 0, processedCount := 0 } hnone
  constructor
  · simp only [processSyncQueue, getQueueItems]
    simp [isOnline, hempty, h1]
    exact fun a ha => ⟨a, ha, rfl⟩
  · simp only [processSyncQueue, getQueueItems]
    simp [isOnline, hempty, h2, h3, hlen]

/-- Witness for C1 at a concrete input: one "feedback" enqueue, then a
fully-successful drain. -/
theorem c1_witness :
    (processSyncQueue okAdapter 0 zeroRands
        { isProcessing := false, onLine := some true, readOk := true,
          store := enqueueAll [("feedback", "payload")] 0 0 [] }).state.store = []
  ∧ (processSyncQueue okAdapter 0 zeroRands
        { isProcessing := false, onLine := some true, readOk := true,
          store := enqueueAll [("feedback", "payload")] 0 0 [] }).result
      = .completed 1 0 :=
  c1_enqueue_then_successful_drain [("feedback", "payload")] okAdapter 0 zeroRands
    (fun _ _ => rfl) (by simp)

/-- C2: item B's adapter call fails on 5 consecutive drain attempts (each past
the item's backoff gate). After the 5th failure the item is removed from the
store, `status().totalItems` is 0, and the removed-and-logged failure counter
of the 5th pass (the `failCount` of the emitted summary) is 1 — while
`status().failedItems` itself is 0, since exhausted items are removed
immediately and can never be observed in the store. -/
theorem c2_exhaustion_scenario :
    exhaustionRun.state.store = []
  ∧ exhaustionRun.result = .completed 0 1
  ∧ (getSyncQueueStatus 500000 exhaustionRun.state).totalItems = 0
  ∧ (getSyncQueueStatus 500000 exhaustionRun.state).failedItems = 0 := by
  have hrun : exhaustionRun
      = { state := { isProcessing := false, onLine := some true, readOk := true, store := [] },
          result := .completed 0 1, adapterCalls := 1 } := by
    norm_num [exhaustionRun, processSyncQueue, getQueueItems, isOnline, drainLoop,
      processQueueItem, handleItemFailure, getRetryDelay, updateQueueItem,
      removeQueueItem, mkQueueItem, failingAdapter, zeroRands,
      MAX_RETRIES, BASE_DELAY, MAX_DELAY, min_def]
  rw [hrun]
  norm_num [getSyncQueueStatus, getQueueItems, isOnline]

/-- C4: a drain invocation made while another pass is in progress, or while
connectivity is known-down, returns the Skipped signal (not an error),
performs zero adapter calls and leaves the engine state — every queue item
and the flag — exactly unchanged; in particular such a second concurrent
invocation processes no item at all. -/
theorem c4_drain_skip_noop (adapter : Adapter) (now : ℚ) (rands : Nat → ℚ)
    (st : EngineState)
    (h : st.isProcessing = true ∨ isOnline st.onLine = false) :
    processSyncQueue adapter now rands st
      = { state := st, result := .skipped, adapterCalls := 0 } := by
  rcases h with h | h
  · simp [processSyncQueue, h]
  · simp [processSyncQueue, h]

/-- Witness for C4 at a concrete input: a drain invoked while a pass is
already running. -/
theorem c4_witness :
    processSyncQueue okAdapter 0 zeroRands
        { isProcessing := true, onLine := some true, readOk := true,
          store := [mkQueueItem 0 "feedback" "B" 0] }
      = { state := { isProcessing := true, onLine := some true, readOk := true,
                     store := [mkQueueItem 0 "feedback" "B" 0] },
          result := .skipped, adapterCalls := 0 } :=
  c4_drain_skip_noop okAdapter 0 zeroRands _ (Or.inl rfl)

/-- C5: every drain invocation that is not blocked by the single-flight guard
leaves the guard false when it completes, on every exit path — skip while
offline, empty or unreadable store, and a full processing pass. -/
theorem c5_guard_released (adapter : Adapter) (now : ℚ) (rands : Nat → ℚ)
    (st : EngineState) (h : st.isProcessing = false) :
    (processSyncQueue adapter now rands st).state.isProcessing = false := by
  by_cases ho : isOnline st.onLine
  · by_cases he : (getQueueItems st).isEmpty
    · simp [processSyncQueue, h, ho, he]
    · simp [processSyncQueue, h, ho, he]
  · simp [processSyncQueue, h, ho]

/-- Witness for C5 at a concrete input: a pass over a one-item queue with a
failing adapter still ends with the guard released. -/
theorem c5_witness :
    (processSyncQueue failingAdapter 0 zeroRands
        { isProcessing := false, onLine := some true, readOk := true,
          store := [mkQueueItem 0 "feedback" "B" 0] }).state.isProcessing = false :=
  c5_guard_released failingAdapter 0 zeroRands _ rfl

/-- Counterexample to C6: with a non-empty queue whose store has become
unreadable, a drain pass does not propagate any failure to its caller — the
read error is caught inside `getQueueItems` (which returns an empty list), so
the pass resolves normally with the empty-queue early return, leaving the
store untouched. The claim that the failure propagates as a terminal failure
of the pass is therefore false on this input. -/
theorem c6_counterexample :
    (processSyncQueue failingAdapter 0 zeroRands
        { isProcessing := false, onLine := some true, readOk := false,
          store := [mkQueueItem 0 "feedback" "B" 0] }).result = .emptyQueue
  ∧ (processSyncQueue failingAdapter 0 zeroRands
        { isProcessing := false, onLine := some true, readOk := false,
          store := [mkQueueItem 0 "feedback" "B" 0] }).result.isFailure = false
  ∧ (processSyncQueue failingAdapter 0 zeroRands
        { isProcessing := false, onLine := some true, readOk := false,
          store := [mkQueueItem 0 "feedback" "B" 0] }).state.store
      = [mkQueueItem 0 "feedback" "B" 0] := by
  refine ⟨rfl, rfl, by decide⟩

/-- C6 as amended: a store-read failure during a drain pass is swallowed, not
propagated — `getQueueItems` catches the error and returns an empty list, so
the pass takes the empty-queue early return: it reports `emptyQueue` (never a
`failed` rejection), makes no adapter call, leaves the store untouched and
still releases the single-flight guard. -/
theorem c6_amended_read_failure_swallowed (adapter : Adapter) (now : ℚ)
    (rands : Nat → ℚ) (st : EngineState)
    (h1 : st.isProcessing = false) (h2 : isOnline st.onLine = true)
    (h3 : st.readOk = false) :
    (processSyncQueue adapter now rands st).result = .emptyQueue
  ∧ (processSyncQueue adapter now rands st).result.isFailure = false
  ∧ (processSyncQueue adapter now rands st).adapterCalls = 0
  ∧ (processSyncQueue adapter now rands st).state.store = st.store
  ∧ (processSyncQueue adapter now rands st).state.isProcessing = false := by
  have hq : getQueueItems st = [] := by simp [getQueueItems, h3]
  refine ⟨?_, ?_, ?_, ?_, ?_⟩ <;>
    simp [processSyncQueue, h1, h2, hq, DrainResult.isFailure]

/-- Witness for the amended C6 at a concrete input. -/
theorem c6_witness :
    (processSyncQueue okAdapter 7 zeroRands
        { isProcessing := false, onLine := some true, readOk := false,
          store := [mkQueueItem 1 "finalSubmit" "P" 2] }).result = .emptyQueue
  ∧ (processSyncQueue okAdapter 7 zeroRands
        { isProcessing := false, onLine := some true, readOk := false,
          store := [mkQueueItem 1 "finalSubmit" "P" 2] }).result.isFailure = false
  ∧ (processSyncQueue okAdapter 7 zeroRands
        { isProcessing := false, onLine := some true, readOk := false,
          store := [mkQueueItem 1 "finalSubmit" "P" 2] }).adapterCalls = 0
  ∧ (processSyncQueue okAdapter 7 zeroRands
        { isProcessing := false, onLine := some true, readOk := false,
          store := [mkQueueItem 1 "finalSubmit" "P" 2] }).state.store
      = [mkQueueItem 1 "finalSubmit" "P" 2]
  ∧ (processSyncQueue okAdapter 7 zeroRands
        { isProcessing := false, onLine := some true, readOk := false,
          store := [mkQueueItem 1 "finalSubmit" "P" 2] }).state.isProcessing = false :=
  c6_amended_read_failure_swallowed okAdapter 7 zeroRands _ rfl rfl rfl

/-- C8: `enqueue` fails only when the storage layer itself faults (IndexedDB
available but the add rejects); on every success it returns the freshly
constructed item, which carries `retries = 0` and no `nextAttemptAt`, appended
to the store. The payload is opaque: both conclusions hold for every type and
payload string, so no payload content can cause a rejection. -/
theorem c8_enqueue_shape (idbAvailable storageOk : Bool) (id : Nat)
    (ty pl : String) (now : ℚ) (store : List QueueItem) :
    (∀ msg, enqueue idbAvailable storageOk id ty pl now store = .error msg →
      idbAvailable = true ∧ storageOk = false ∧ msg = "StorageUnavailable")
  ∧ (∀ store' item, enqueue idbAvailable storageOk id ty pl now store = .ok (store', item) →
      item.retries = 0 ∧ item.nextAttemptAt = none ∧ item.type = ty
        ∧ item.payload = pl ∧ store' = store ++ [item]) := by
  constructor
  · intro msg h
    cases hi : idbAvailable <;> cases hs : storageOk <;>
      rw [hi, hs] at h <;> simp [enqueue, addToSyncQueue] at h
    exact ⟨rfl, rfl, h.symm⟩
  · intro store' item h
    cases hi : idbAvailable <;> cases hs : storageOk <;>
      rw [hi, hs] at h <;> simp [enqueue, addToSyncQueue] at h <;>
      obtain ⟨h1, h2⟩ := h <;> subst h2 <;> subst h1 <;>
      exact ⟨rfl, rfl, rfl, rfl, rfl⟩

/-- Witness for C8 at a concrete input: a successful enqueue of an arbitrary
payload. -/
theorem c8_witness :
    (mkQueueItem 3 "feedback" "any payload at all" 9).retries = 0
  ∧ (mkQueueItem 3 "feedback" "any payload at all" 9).nextAttemptAt = none
  ∧ (mkQueueItem 3 "feedback" "any payload at all" 9).type = "feedback"
  ∧ (mkQueueItem 3 "feedback" "any payload at all" 9).payload = "any payload at all"
  ∧ [] ++ [mkQueueItem 3 "feedback" "any payload at all" 9]
      = [] ++ [mkQueueItem 3 "feedback" "any payload at all" 9] :=
  (c8_enqueue_shape true true 3 "feedback" "any payload at all" 9 []).2
    ([] ++ [mkQueueItem 3 "feedback" "any payload at all" 9])
    (mkQueueItem 3 "feedback" "any payload at all" 9) rfl

/-- C10: an item whose type is neither "finalSubmit" nor "feedback" is
processed without any remote submission (zero adapter calls), reported as a
success (so the drain pass counts it in the success counter), and removed
from the store — its payload silently discarded. -/
theorem c10_unknown_type_discarded (adapter : Adapter) (now rand : ℚ)
    (store : List QueueItem) (item : QueueItem)
    (h1 : item.type ≠ "finalSubmit") (h2 : item.type ≠ "feedback") :
    (processQueueItem adapter now rand store item).adapterCalls = 0
  ∧ (processQueueItem adapter now rand store item).success = true
  ∧ (processQueueItem adapter now rand store item).store
      = removeQueueItem store item.id := by
  have h : ¬ (item.type = "finalSubmit" ∨ item.type = "feedback") := by
    rintro (h | h) <;> [exact h1 h; exact h2 h]
  refine ⟨?_, ?_, ?_⟩ <;> simp [processQueueItem, h]

/-- Witness for C10 at a concrete input: a "draft" item in a two-item store. -/
theorem c10_witness :
    (processQueueItem okAdapter 0 0
        [mkQueueItem 4 "draft" "D" 0, mkQueueItem 5 "feedback" "F" 0]
        (mkQueueItem 4 "draft" "D" 0)).adapterCalls = 0
  ∧ (processQueueItem okAdapter 0 0
        [mkQueueItem 4 "draft" "D" 0, mkQueueItem 5 "feedback" "F" 0]
        (mkQueueItem 4 "draft" "D" 0)).success = true
  ∧ (processQueueItem okAdapter 0 0
        [mkQueueItem 4 "draft" "D" 0, mkQueueItem 5 "feedback" "F" 0]
        (mkQueueItem 4 "draft" "D" 0)).store
      = removeQueueItem [mkQueueItem 4 "draft" "D" 0, mkQueueItem 5 "feedback" "F" 0]
          (mkQueueItem 4 "draft" "D" 0).id :=
  c10_unknown_type_discarded okAdapter 0 0 _ _ (by decide) (by decide)

/-- C3: for every failed adapter attempt that leaves the item in the store at
retry count `n` (that is, `n = retries + 1 < MAX_RETRIES`, so `1 ≤ n ≤ 4`),
the computed backoff delay `d` satisfies
`BASE_DELAY * 2^n ≤ d ≤ BASE_DELAY * 2^n * 1.3` (jitter adds at most 30 %),
never exceeds `MAX_DELAY = 30000 ms`, and the item is re-persisted with
`nextAttemptAt = now + d` (and `retries = n`, `lastError` recorded). -/
theorem c3_backoff_bounds (item : QueueItem) (msg : String) (now rand : ℚ)
    (store : List QueueItem) (adapter : Adapter)
    (hty : item.type = "finalSubmit" ∨ item.type = "feedback")
    (hfail : adapter item.type item.payload = .err msg)
    (h0 : 0 ≤ rand) (h1 : rand < 1)
    (hleft : item.retries + 1 < MAX_RETRIES) :
    BASE_DELAY * 2 ^ (item.retries + 1) ≤ getRetryDelay (item.retries + 1) rand
  ∧ getRetryDelay (item.retries + 1) rand ≤ BASE_DELAY * 2 ^ (item.retries + 1) * (13 / 10)
  ∧ getRetryDelay (item.retries + 1) rand ≤ MAX_DELAY
  ∧ (processQueueItem adapter now rand store item).store
      = updateQueueItem store item.id (fun it =>
          { it with retries := item.retries + 1,
                    nextAttemptAt := some (now + getRetryDelay (item.retries + 1) rand),
                    lastError := some msg }) := by
  have hn : item.retries + 1 ≤ 4 := by
    simp only [MAX_RETRIES] at hleft; omega
  have hpow : (2 : ℚ) ^ (item.retries + 1) ≤ 2 ^ 4 :=
    pow_le_pow_right₀ (by norm_num) hn
  have hpow' : (2 : ℚ) ^ 4 = 16 := by norm_num
  have hb : (0 : ℚ) < 1000 * 2 ^ (item.retries + 1) := by positivity
  have hmin : min (BASE_DELAY * 2 ^ (item.retries + 1)) MAX_DELAY
      = BASE_DELAY * 2 ^ (item.retries + 1) := by
    apply min_eq_left
    rw [BASE_DELAY, MAX_DELAY]
    nlinarith
  have hd : getRetryDelay (item.retries + 1) rand
      = BASE_DELAY * 2 ^ (item.retries + 1)
        + rand * (3 / 10) * (BASE_DELAY * 2 ^ (item.retries + 1)) := by
    rw [getRetryDelay]
    rw [hmin]
  refine ⟨?_, ?_, ?_, ?_⟩
  · rw [hd, BASE_DELAY]
    nlinarith
  · rw [hd, BASE_DELAY]
    nlinarith
  · rw [hd, BASE_DELAY, MAX_DELAY]
    nlinarith
  · simp only [processQueueItem, if_pos hty, hfail]
    simp only [handleItemFailure]
    rw [if_neg (by omega)]

/-- Witness for C3 at a concrete input: first failure of a fresh "feedback"
item with jitter sample 1/2. -/
theorem c3_backoff_bounds_witness :
    BASE_DELAY * 2 ^ ((mkQueueItem 0 "feedback" "p" 0).retries + 1)
      ≤ getRetryDelay ((mkQueueItem 0 "feedback" "p" 0).retries + 1) (1 / 2)
  ∧ getRetryDelay ((mkQueueItem 0 "feedback" "p" 0).retries + 1) (1 / 2)
      ≤ BASE_DELAY * 2 ^ ((mkQueueItem 0 "feedback" "p" 0).retries + 1) * (13 / 10)
  ∧ getRetryDelay ((mkQueueItem 0 "feedback" "p" 0).retries + 1) (1 / 2) ≤ MAX_DELAY
  ∧ (processQueueItem failingAdapter 0 (1 / 2)
        [mkQueueItem 0 "feedback" "p" 0] (mkQueueItem 0 "feedback" "p" 0)).store
      = updateQueueItem [mkQueueItem 0 "feedback" "p" 0] (mkQueueItem 0 "feedback" "p" 0).id
          (fun it =>
            { it with retries := (mkQueueItem 0 "feedback" "p" 0).retries + 1,
                      nextAttemptAt := some (0 + getRetryDelay
                        ((mkQueueItem 0 "feedback" "p" 0).retries + 1) (1 / 2)),
                      lastError := some "network error" }) :=
  c3_backoff_bounds (mkQueueItem 0 "feedback" "p" 0) "network error" 0 (1 / 2)
    [mkQueueItem 0 "feedback" "p" 0] failingAdapter (Or.inr rfl) rfl
    (by norm_num) (by norm_num) (by decide)

/-- Helper: `processQueueItem` either keeps a store entry unchanged or
replaces the processed item's entry with one whose retry count is the
processed item's count plus one (entries can also disappear; none is ever
rewritten to a smaller retry count). -/
theorem processQueueItem_store_cases (adapter : Adapter) (now rand : ℚ)
    (s : List QueueItem) (item : QueueItem) :
    ∀ x ∈ (processQueueItem adapter now rand s item).store,
      x ∈ s ∨ (x.id = item.id ∧ x.retries = item.retries + 1) := by
  intro x hx
  by_cases hty : item.type = "finalSubmit" ∨ item.type = "feedback"
  · simp only [processQueueItem, if_pos hty] at hx
    cases hres : adapter item.type item.payload with
    | ok =>
      rw [hres] at hx
      exact Or.inl (List.mem_filter.1 hx).1
    | err msg =>
      rw [hres] at hx
      simp only [handleItemFailure] at hx
      by_cases hm : MAX_RETRIES ≤ item.retries + 1
      · rw [if_pos hm] at hx
        exact Or.inl (List.mem_filter.1 hx).1
      · rw [if_neg hm] at hx
        simp only [updateQueueItem, List.mem_map] at hx
        obtain ⟨x0, hx0, heq⟩ := hx
        by_cases hid : x0.id = item.id
        · rw [if_pos hid] at heq
          refine Or.inr ?_
          rw [← heq]
          exact ⟨hid, rfl⟩
        · rw [if_neg hid] at heq
          rw [← heq]
          exact Or.inl hx0
  · simp only [processQueueItem, if_neg hty] at hx
    exact Or.inl (List.mem_filter.1 hx).1

/-- Helper: across a drain loop, every surviving store entry traces back to an
entry of the starting snapshot set `S` with the same id and a retry count
that did not decrease. -/
theorem drainLoop_retries_mono (adapter : Adapter) (now : ℚ) (rands : Nat → ℚ)
    (S : List QueueItem) :
    ∀ (l : List QueueItem) (acc : LoopAcc),
      (∀ x ∈ acc.store, ∃ y ∈ S, y.id = x.id ∧ y.retries ≤ x.retries) →
      (∀ it ∈ l, ∃ y ∈ S, y.id = it.id ∧ y.retries ≤ it.retries) →
      ∀ x ∈ (drainLoop adapter now rands l acc).store,
        ∃ y ∈ S, y.id = x.id ∧ y.retries ≤ x.retries := by
  intro l
  induction l with
  | nil => intro acc hacc _; simpa [drainLoop] using hacc
  | cons item rest ih =>
    intro acc hacc hl
    have hitem := hl item (by simp)
    have hrest : ∀ it ∈ rest, ∃ y ∈ S, y.id = it.id ∧ y.retries ≤ it.retries :=
      fun it hit => hl it (List.mem_cons_of_mem _ hit)
    have hstep : ∀ x ∈ (processQueueItem adapter now (rands acc.processedCount) acc.store item).store,
        ∃ y ∈ S, y.id = x.id ∧ y.retries ≤ x.retries := by
      intro x hx
      rcases processQueueItem_store_cases adapter now (rands acc.processedCount)
          acc.store item x hx with h | ⟨hid, hret⟩
      · exact hacc x h
      · obtain ⟨y, hy, hyid, hyret⟩ := hitem
        exact ⟨y, hy, by rw [hyid, hid], by omega⟩
    cases hna : item.nextAttemptAt with
    | some t =>
      by_cases ht : now < t
      · simp only [drainLoop, hna, decide_eq_true ht, if_true]
        exact ih acc hacc hrest
      · simp only [drainLoop, hna]
        rw [decide_eq_false ht]
        simp only [Bool.false_eq_true, if_false]
        exact ih _ hstep hrest
    | none =>
      simp only [drainLoop, hna, Bool.false_eq_true, if_false]
      exact ih _ hstep hrest

/-- Helper: a fold of removals only ever shrinks the store. -/
theorem foldl_remove_subset :
    ∀ (items : List QueueItem) (s : List QueueItem),
      ∀ x ∈ items.foldl (fun s it => removeQueueItem s it.id) s, x ∈ s := by
  intro items
  induction items with
  | nil => intro s x hx; simpa using hx
  | cons it rest ih =>
    intro s x hx
    have := ih (removeQueueItem s it.id) x hx
    exact (List.mem_filter.1 this).1

/-- Counterexample to C7: the manual retry operation (`retryQueueItem`,
the spec's `retryNow`) resets an item whose retry count is 3 back to 0 —
`retries` decreases under this operation. (The state is offline, so the
subsequent opportunistic drain is skipped and the reset is directly
observable, exactly as in the source.) -/
theorem c7_counterexample :
    (⟨0, "feedback", "B", 0, 3, none, none⟩ : QueueItem).retries = 3
  ∧ ((retryQueueItem okAdapter 0 zeroRands
        { isProcessing := false, onLine := some false, readOk := true,
          store := [⟨0, "feedback", "B", 0, 3, none, none⟩] } 0).1.store.map
      QueueItem.retries) = [0] := by
  refine ⟨rfl, ?_⟩
  simp [retryQueueItem, isOnline, updateQueueItem]

/-- C7 as amended: `retries` never decreases under enqueue (which only
appends a fresh item), under a drain pass (each surviving entry keeps or
increases the retry count of the entry it came from), and under cleanup
(`clearFailedQueueItems` removes entries without mutating any survivor). The
sole exception — forced by the counterexample — is the manual retry
operation, which deliberately resets `retries` to 0. -/
theorem c7_amended_retries_monotone (adapter : Adapter) (now : ℚ)
    (rands : Nat → ℚ) (st : EngineState) :
    (∀ x ∈ (processSyncQueue adapter now rands st).state.store,
      ∃ y ∈ st.store, y.id = x.id ∧ y.retries ≤ x.retries)
  ∧ (∀ x ∈ (clearFailedQueueItems st).1.store, x ∈ st.store) := by
  constructor
  · intro x hx
    by_cases hp : st.isProcessing
    · simp only [processSyncQueue, if_pos hp] at hx
      exact ⟨x, hx, rfl, le_refl _⟩
    · by_cases ho : isOnline st.onLine
      · by_cases hr : st.readOk
        · have hq : getQueueItems st = st.store := by simp [getQueueItems, hr]
          by_cases he : (getQueueItems st).isEmpty
          · simp only [processSyncQueue, hp, ho, he] at hx
            simp at hx
            exact ⟨x, hx, rfl, le_refl _⟩
          · simp only [processSyncQueue, hp, ho, he] at hx
            simp at hx
            rw [hq] at hx
            exact drainLoop_retries_mono adapter now rands st.store st.store
              { store := st.store, successCount := 0, failCount := 0,
                adapterCalls := 0, processedCount := 0 }
              (fun y hy => ⟨y, hy, rfl, le_refl _⟩)
              (fun y hy => ⟨y, hy, rfl, le_refl _⟩) x hx
        · have hq : getQueueItems st = [] := by simp [getQueueItems, hr]
          have he : (getQueueItems st).isEmpty := by rw [hq]; rfl
          simp only [processSyncQueue, hp, ho, he] at hx
          simp at hx
          exact ⟨x, hx, rfl, le_refl _⟩
      · simp only [processSyncQueue, hp, ho] at hx
        simp at hx
        exact ⟨x, hx, rfl, le_refl _⟩
  · intro x hx
    exact foldl_remove_subset _ _ x hx

/-- Witness for the amended C7 at a concrete input: after a failing drain pass
over a one-item queue, the surviving entry traces back to the original item
with a no-smaller retry count. -/
theorem c7_witness :
    ∃ y ∈ [mkQueueItem 0 "feedback" "B" 0],
      y.id = (QueueItem.mk 0 "feedback" "B" 0 1 (some 2000) (some "network error")).id
    ∧ y.retries ≤ (QueueItem.mk 0 "feedback" "B" 0 1 (some 2000) (some "network error")).retries :=
  (c7_amended_retries_monotone failingAdapter 0 zeroRands
      { isProcessing := false, onLine := some true, readOk := true,
        store := [mkQueueItem 0 "feedback" "B" 0] }).1
    (QueueItem.mk 0 "feedback" "B" 0 1 (some 2000) (some "network error"))
    (by norm_num [processSyncQueue, getQueueItems, isOnline, drainLoop,
      processQueueItem, handleItemFailure, getRetryDelay, updateQueueItem,
      removeQueueItem, mkQueueItem, failingAdapter, zeroRands,
      MAX_RETRIES, BASE_DELAY, MAX_DELAY, min_def])

/-- C9 (code bug): `clearExpiredCache`'s `while (cursor)` loop can never
complete a bounded pass over a non-empty cache store, for any amount of fuel.
The `const cursor` binding is never reassigned from `await cursor.continue()`,
so the loop guard never becomes false; the second iteration reads
`cursor.value` — undefined once `continue()` has been called without awaiting
it — and dereferencing `.createdAt` of undefined throws. The function
therefore never returns the removed-entry count claimed by the spec (whose
intent — a bounded cursor scan removing exactly the expired entries — is
clearly what this code was meant to do). On an empty store it does return 0. -/
theorem c9_cursor_loop_never_returns :
    (∀ fuel : Nat,
      ((clearExpiredCacheJs fuel 1000000000 86400000
          [{ key := "k1", data := "d1", type := "aiScore",
             createdAt := 999999999 }]).1).isOk = false)
  ∧ (clearExpiredCacheJs 1 1000000000 86400000 []).1 = .ok 0 := by
  constructor
  · intro fuel
    match fuel with
    | 0 => rfl
    | 1 => rfl
    | (n + 2) => rfl
  · rfl
